import Mathlib

/-!
Shallow embedding of the JellyfinDownloader CLI (main.go) in Lean 4.

The program's entry point, argument validation, interactive selection and
confirmation logic (all in main.go) are translated directly.  External
collaborators from the `jf_requests` package (HTTP search/lookup calls,
the season multi-select, the confirmation rendering) are modelled as an
explicit environment `Env` holding their results; where the behaviour of
a missing `jf_requests` function matters it is modelled from the spec and
marked as such in its doc comment.  Interactive input lines are passed in
as the raw strings delivered by `bufio.Reader.ReadString`, i.e. including
the trailing newline.  We model the non-Windows branch of the OS-specific
newline handling.
-/

namespace Jellyfin

/-- Modelled from the spec (section 3): a catalog entry from the
`jf_requests` package.  The Go field `Type` is rendered `ItemType`
because `Type` is a reserved word in Lean. -/
structure Item where
  Id : String
  Name : String
  ItemType : String
deriving DecidableEq

/-- Modelled from the spec (section 3): an episode of a season. -/
structure Episode where
  Id : String
  Name : String
  SeasonId : String
deriving DecidableEq

/-- Modelled from the spec (section 3): a season of a series. -/
structure Season where
  Id : String
  Name : String
  Episodes : List Episode
deriving DecidableEq

/-- Modelled from the spec (section 3): a series with its seasons. -/
structure Series where
  Name : String
  Seasons : List Season
deriving DecidableEq

/-- Modelled from the spec (section 3): a movie entity. -/
structure Movie where
  Name : String
deriving DecidableEq

/-- Modelled from the spec (section 3): the authentication response;
main.go only ever reads its token. -/
structure AuthResponse where
  Token : String
deriving DecidableEq

/-- The CLI argument struct of main.go (`Arguments`).
Field order: BaseUrl, Username, Password, SeriesId, SeasonId, Name, Version. -/
structure Arguments where
  BaseUrl : String
  Username : String
  Password : String
  SeriesId : String
  SeasonId : String
  Name : String
  Version : Bool
deriving DecidableEq

/-- The hard-coded version string of main.go. -/
def VERSION : String := "v1.2.2"

/-! ### A small regular-expression matcher

`CheckArguments` validates the base URL with Go's `regexp.Match`, so we
embed the regular-expression language fragment the URL pattern uses:
character classes, concatenation, alternation and Kleene star (the lazy
star `*?` of the source pattern recognises the same language as `*`, and
only the boolean match result is observed, so it is embedded as `star`).
Matching is by Brzozowski derivatives. -/

inductive Regex where
  | emp : Regex
  | eps : Regex
  | cls : List Char → Regex
  | cat : Regex → Regex → Regex
  | alt : Regex → Regex → Regex
  | star : Regex → Regex
deriving DecidableEq

/-- Does the regex accept the empty string? -/
def nullable : Regex → Bool
  | .emp => false
  | .eps => true
  | .cls _ => false
  | .cat r s => nullable r && nullable s
  | .alt r s => nullable r || nullable s
  | .star _ => true

/-- Smart alternation constructor, keeping derivatives small. -/
def mkAlt : Regex → Regex → Regex
  | .emp, s => s
  | r, .emp => r
  | r, s => .alt r s

/-- Smart concatenation constructor, keeping derivatives small. -/
def mkCat : Regex → Regex → Regex
  | .emp, _ => .emp
  | _, .emp => .emp
  | .eps, s => s
  | r, .eps => r
  | r, s => .cat r s

/-- Brzozowski derivative of a regex by one character. -/
def deriv (r : Regex) (c : Char) : Regex :=
  match r with
  | .emp => .emp
  | .eps => .emp
  | .cls l => if l.contains c then .eps else .emp
  | .cat r1 r2 =>
    if nullable r1 then mkAlt (mkCat (deriv r1 c) r2) (deriv r2 c)
    else mkCat (deriv r1 c) r2
  | .alt r1 r2 => mkAlt (deriv r1 c) (deriv r2 c)
  | .star r1 => mkCat (deriv r1 c) (.star r1)

/-- Anchored match: does the regex accept exactly this character list? -/
def rmatch (r : Regex) (cs : List Char) : Bool :=
  nullable (cs.foldl deriv r)

/-- Go's `regexp.Match` with an unanchored pattern ending in `$` (and no
multiline flag): the pattern may start anywhere but must run to the end
of the text, i.e. some suffix of the text matches the anchored body. -/
def rmatchSuffix (r : Regex) (s : String) : Bool :=
  (List.range (s.length + 1)).any fun i => rmatch r (s.toList.drop i)

/-- A regex recognising exactly one given literal string. -/
def strR (s : String) : Regex :=
  s.toList.foldr (fun c r => .cat (.cls [c]) r) .eps

/-- `r?`: the regex made optional. -/
def optR (r : Regex) : Regex := .alt .eps r

/-- `r+`: one or more repetitions. -/
def plusR (r : Regex) : Regex := .cat r (.star r)

/-- Go's ASCII `\w` class: letters, digits and underscore. -/
def wordChars : List Char :=
  "abcdefghijklmnopqrstuvwxyzABCDEFGHIJKLMNOPQRSTUVWXYZ0123456789_".toList

/-- Go's `\d` class. -/
def digitChars : List Char := "0123456789".toList

/-- The class `[\d\w._-]` of the URL pattern (digits are already word
characters, so the class is word characters plus dot and hyphen). -/
def hostChars : List Char := wordChars ++ ['.', '-']

/-- The class `[/\d\w._-]` of the URL pattern. -/
def pathChars : List Char := hostChars ++ ['/']

/-- The URL pattern of `CheckArguments`:
the source string is the Go pattern with escaped `:` and `/`; its shape is
`http`, optional `s`, `://`, one or more host characters, an optional
`:digits` port, an optional `/`, and an optional (lazy) run of path
characters, anchored at the end of the text only. -/
def urlpattern : Regex :=
  .cat (strR "http")
    (.cat (optR (.cls ['s']))
      (.cat (strR "://")
        (.cat (plusR (.cls hostChars))
          (.cat (optR (.cat (.cls [':']) (plusR (.cls digitChars))))
            (.cat (optR (.cls ['/']))
              (optR (.star (.cls pathChars))))))))

/-- `CheckArguments` of main.go.  The regular expression is a fixed valid
pattern, so `regexp.Match` never returns a non-nil error and the Go
condition `!match || err != nil` reduces to `!match`. -/
def CheckArguments (args : Arguments) : Bool × String :=
  if args.BaseUrl = "" then
    (false, "No URL was given. See -h for more information")
  else if ¬ rmatchSuffix urlpattern args.BaseUrl then
    (false, "URL was supplied in the wrong pattern.")
  else if args.SeriesId = "" ∧ args.Name = "" then
    (false, "No SeriesID or Name was given. See -h for more information.")
  else
    (true, "")

/-! ### Interactive input handling -/

/-- Go's `strings.TrimSuffix(response, "\n")` as used by the non-Windows
branch of `PrintItemSelection` and `GetUsername`: drop one trailing
newline if present, otherwise return the string unchanged. -/
def trimSuffixNl (s : String) : String :=
  match s.data.reverse with
  | [] => s
  | c :: rest => if c = '\n' then String.mk rest.reverse else s

/-- Go's `strings.TrimSpace`: drop whitespace from both ends.  (Go trims
by Unicode's definition of space; on the ASCII inputs this program reads
it agrees with `Char.isWhitespace`.) -/
def goTrimSpace (s : String) : String :=
  String.mk (((s.data.dropWhile Char.isWhitespace).reverse.dropWhile
    Char.isWhitespace).reverse)

/-- Go's `strings.ToLower` (ASCII fragment, which covers the inputs this
program compares against the all-ASCII token "y"). -/
def goToLower (s : String) : String :=
  String.mk (s.data.map Char.toLower)

/-- `GetConfirmation` of main.go: lowercase the whitespace-trimmed input
line and compare it with the affirmative token.  The argument is the raw
line delivered by `ReadString`, trailing newline included (the trim
removes it). -/
def GetConfirmation (rawLine : String) : Bool :=
  goToLower (goTrimSpace rawLine) == "y"

/-- Go's `strconv.Atoi`: an optional sign followed by one or more ASCII
digits and nothing else.  (The int64 overflow error of `Atoi` is not
modelled; all inputs of interest are small.) -/
def goAtoi (s : String) : Option Int :=
  match s.toList with
  | [] => none
  | c :: rest =>
    let digits := if c = '-' ∨ c = '+' then rest else c :: rest
    if digits = [] ∨ ¬ digits.all Char.isDigit then none
    else
      let n : Nat := digits.foldl (fun acc d => acc * 10 + (d.toNat - 48)) 0
      some (if c = '-' then -(n : Int) else (n : Int))

/-- The possible outcomes of `PrintItemSelection`. -/
inductive SelOutcome where
  | selected : Item → SelOutcome
  | invalidRange : SelOutcome
  | invalidFormat : SelOutcome
  | panicIndex : SelOutcome
deriving DecidableEq

/-- Go slice indexing `itemsToSelect[i]`: an index outside `[0, len)`
aborts the process with a runtime panic. -/
def goIndex (xs : List Item) (i : Int) : SelOutcome :=
  if i < 0 then .panicIndex
  else
    match xs.get? i.toNat with
    | some it => .selected it
    | none => .panicIndex

/-- `PrintItemSelection` of main.go, as a function of the listed items and
the raw input line (the enumeration printing and the prompt are modelled
as an event in `Download` below; the selection result only depends on the
items and the line).  Only the trailing newline is stripped (non-Windows
branch); then the line must parse via `Atoi`, pass the bound check
`selection < 0 || selection > len(itemsToSelect)`, and the item at
`selection-1` is returned. -/
def PrintItemSelection (items : List Item) (rawLine : String) : SelOutcome :=
  match goAtoi (trimSuffixNl rawLine) with
  | some selection =>
    if selection < 0 ∨ selection > (items.length : Int) then .invalidRange
    else goIndex items (selection - 1)
  | none => .invalidFormat

/-! ### Spec-modelled `jf_requests` collaborators

The `jf_requests` package is part of this repository but its sources are
not available here; the pieces whose behaviour the claims depend on are
modelled from the spec. -/

/-- Modelled from the spec: `jf_requests.Series.GetSeasonForId` (spec
section 4.4): look the season id up among the series' known seasons; a
missing id is the `SeasonNotFound` error. -/
def GetSeasonForId (series : Series) (seasonId : String) : Except String Season :=
  match series.Seasons.find? (fun s => s.Id = seasonId) with
  | some s => Except.ok s
  | none => Except.error "SeasonNotFound"

/-- The sub-list of `seasons` whose positions are among `idxs`, in season
order (spec section 4.4: chosen seasons keep the season order). -/
def chosenSeasons (seasons : List Season) (idxs : List Nat) : List Season :=
  (seasons.enum.filter (fun p => idxs.contains p.1)).map Prod.snd

/-- Modelled from the spec: `jf_requests.Series.PrintAndGetSelection`, the
interactive season multi-select (spec sections 4.4 and 7): zero or more
seasons chosen, each contributing in season order; selecting nothing is
the `EmptySelection` error of the error taxonomy. -/
def PrintAndGetSelection (series : Series) (idxs : List Nat) : Except String (List Season) :=
  let chosen := chosenSeasons series.Seasons idxs
  if chosen.isEmpty then Except.error "EmptySelection" else Except.ok chosen

/-! ### The orchestration flow as a trace-producing function

Every call to an external collaborator and every interactive prompt is
recorded as an `Event`; the `Env` structure fixes the results the
collaborators and the user would deliver during one run. -/

/-- Observable events of one run. -/
inductive Event where
  | versionPrinted : String → Event
  | argErrorMsg : String → Event
  | authCall : Event
  | authFailMsg : Event
  | idLookupCall : Event
  | searchCall : Event
  | transportFailMsg : String → Event
  | noMatchesMsg : Event
  | selectionPrompt : Event
  | selectionErrMsg : String → Event
  | seriesFetchCall : Event
  | seasonSelectPrompt : Event
  | errMsg : String → Event
  | confirmPromptSeries : Event
  | confirmPromptMovie : Event
  | downloadEpisodesCall : Nat → Event
  | movieFetchCall : Event
  | downloadMovieCall : Event
deriving DecidableEq

/-- The results the external collaborators and the interactive user
deliver during one run. -/
structure Env where
  itemForId : Except String Item
  itemsForText : Except String (List Item)
  selectionLine : String
  seriesFromItem : Except String Series
  chosenSeasonIdxs : List Nat
  confirmSeries : Bool
  movieFromItem : Except String Movie
  confirmMovie : Bool
  authResult : Except String AuthResponse

/-- `DownloadSeries` of main.go.  `GetSeriesFromItem` is the external
fetch (result in `env.seriesFromItem`); `PrintAndGetConfirmation` is the
confirmation gate (prompt recorded, answer in `env.confirmSeries`).  Note
that the Go function returns `true` whether or not the download was
confirmed. -/
def DownloadSeries (auth : AuthResponse) (baseurl : String) (item : Item)
    (seasonId : String) (env : Env) : Bool × List Event :=
  match env.seriesFromItem with
  | .error e => (false, [.seriesFetchCall, .transportFailMsg e])
  | .ok series =>
    if seasonId ≠ "" then
      match GetSeasonForId series seasonId with
      | .error e => (false, [.seriesFetchCall, .errMsg e])
      | .ok _ =>
        if env.confirmSeries then
          (true, [.seriesFetchCall, .confirmPromptSeries, .downloadEpisodesCall 1])
        else
          (true, [.seriesFetchCall, .confirmPromptSeries])
    else
      match PrintAndGetSelection series env.chosenSeasonIdxs with
      | .error e => (false, [.seriesFetchCall, .seasonSelectPrompt, .errMsg e])
      | .ok seasons =>
        if env.confirmSeries then
          (true, [.seriesFetchCall, .seasonSelectPrompt, .confirmPromptSeries,
                  .downloadEpisodesCall seasons.length])
        else
          (true, [.seriesFetchCall, .seasonSelectPrompt, .confirmPromptSeries])

/-- `DownloadMovie` of main.go: fetch the movie (result in
`env.movieFromItem`), show the confirmation gate, download only on "y",
and report failure when declined. -/
def DownloadMovie (auth : AuthResponse) (baseurl : String) (item : Item)
    (env : Env) : Bool × List Event :=
  match env.movieFromItem with
  | .error e => (false, [.movieFetchCall, .transportFailMsg e])
  | .ok _ =>
    if env.confirmMovie then
      (true, [.movieFetchCall, .confirmPromptMovie, .downloadMovieCall])
    else
      (false, [.movieFetchCall, .confirmPromptMovie])

/-- A run of `Download` either returns a boolean or aborts in a Go panic
(the out-of-range slice index of `PrintItemSelection`). -/
inductive RunResult where
  | ok : Bool → RunResult
  | panicked : RunResult
deriving DecidableEq

/-- `Download` of main.go: the `-seriesid` branch looks the item up by id
(`GetItemForId`, result in `env.itemForId`); otherwise the `-name` branch
searches (`GetItemsForText`, result in `env.itemsForText`), rejects an
empty result list, and runs the interactive selection of
`PrintItemSelection` (prompt recorded as an event here). -/
def Download (args : Arguments) (auth : AuthResponse) (env : Env) :
    RunResult × List Event :=
  if args.SeriesId ≠ "" then
    match env.itemForId with
    | .error e => (.ok false, [.idLookupCall, .transportFailMsg e])
    | .ok item =>
      if item.ItemType = "Series" then
        let r := DownloadSeries auth args.BaseUrl item args.SeasonId env
        (.ok r.1, .idLookupCall :: r.2)
      else
        let r := DownloadMovie auth args.BaseUrl item env
        (.ok r.1, .idLookupCall :: r.2)
  else if args.Name ≠ "" then
    match env.itemsForText with
    | .error e => (.ok false, [.searchCall, .transportFailMsg e])
    | .ok items =>
      if items.length = 0 then (.ok false, [.searchCall, .noMatchesMsg])
      else
        match PrintItemSelection items env.selectionLine with
        | .selected item =>
          if item.ItemType = "Series" then
            let r := DownloadSeries auth args.BaseUrl item "" env
            (.ok r.1, .searchCall :: .selectionPrompt :: r.2)
          else
            let r := DownloadMovie auth args.BaseUrl item env
            (.ok r.1, .searchCall :: .selectionPrompt :: r.2)
        | .invalidRange =>
          (.ok false, [.searchCall, .selectionPrompt, .selectionErrMsg "Invalid Selection"])
        | .invalidFormat =>
          (.ok false, [.searchCall, .selectionPrompt,
                       .selectionErrMsg "Only provide a single number"])
        | .panicIndex => (.panicked, [.searchCall, .selectionPrompt])
  else (.ok false, [])

/-- How a whole run of `main` can end. -/
inductive MainOutcome where
  | exit : Nat → MainOutcome
  | panicked : MainOutcome
deriving DecidableEq

/-- `main` of main.go: the `-version` short-circuit, argument validation,
credential resolution (no effect on control flow; credentials feed the
external `Authorize`, whose result is in `env.authResult`), then
`Download`; a `false` result exits with status 1. -/
def mainRun (args : Arguments) (env : Env) : MainOutcome × List Event :=
  if args.Version then
    (.exit 0, [.versionPrinted ("JellyfinDownloader Version: " ++ VERSION)])
  else if (CheckArguments args).1 = false then
    (.exit 1, [.argErrorMsg (CheckArguments args).2])
  else
    match env.authResult with
    | .error _ => (.exit 1, [.authCall, .authFailMsg])
    | .ok auth =>
      match Download args auth env with
      | (.ok true, tr) => (.exit 0, .authCall :: tr)
      | (.ok false, tr) => (.exit 1, .authCall :: tr)
      | (.panicked, tr) => (.panicked, .authCall :: tr)

/-! ### Concrete sample data for witnesses and counterexamples -/

/-- A movie-typed catalog item. -/
def itemMovieA : Item := ⟨"a1", "Alpha", "Movie"⟩

/-- A second movie-typed catalog item. -/
def itemMovieB : Item := ⟨"b1", "Beta", "Movie"⟩

/-- A series-typed catalog item. -/
def itemSeries1 : Item := ⟨"sid1", "Show", "Series"⟩

/-- A sample movie entity. -/
def movie1 : Movie := ⟨"Alpha"⟩

/-- A sample episode of season x1. -/
def episode1 : Episode := ⟨"e1", "Ep 1", "x1"⟩

/-- A sample season holding one episode. -/
def season1 : Season := ⟨"x1", "Season 1", [episode1]⟩

/-- A sample series holding one season. -/
def series1 : Series := ⟨"Show", [season1]⟩

/-- A sample authentication response. -/
def auth1 : AuthResponse := ⟨"tok"⟩

/-- Arguments for a name search (no series id). -/
def args2 : Arguments := ⟨"http://srv", "", "", "", "", "Alpha", false⟩

/-- Environment in which the search finds exactly one item and the user
answers the selection prompt with an empty line. -/
def env2 : Env := ⟨.error "unused", .ok [itemMovieA], "\n", .error "unused", [],
  false, .ok movie1, true, .ok auth1⟩

/-- Arguments selecting series sid1 restricted to season x1. -/
def args3 : Arguments := ⟨"http://srv", "", "", "sid1", "x1", "", false⟩

/-- Environment in which series sid1 resolves, season x1 exists, and the
user declines the confirmation gate. -/
def env3 : Env := ⟨.ok itemSeries1, .error "unused", "", .ok series1, [],
  false, .error "unused", false, .ok auth1⟩

/-- Arguments selecting a movie item by id. -/
def args3m : Arguments := ⟨"http://srv", "", "", "mid", "", "", false⟩

/-- Environment in which the id resolves to a movie and the user declines
the confirmation gate. -/
def env3m : Env := ⟨.ok itemMovieA, .error "unused", "", .error "unused", [],
  false, .ok movie1, false, .ok auth1⟩

/-- Arguments for a name search that will find nothing. -/
def args6 : Arguments := ⟨"http://srv", "", "", "", "", "Zeta", false⟩

/-- Environment in which the search returns zero results. -/
def env6 : Env := ⟨.error "unused", .ok [], "", .error "unused", [],
  false, .error "unused", false, .ok auth1⟩

/-- Arguments supplying both a series id and a search name. -/
def args7 : Arguments := ⟨"http://srv", "", "", "sid1", "x1", "ignored", false⟩

/-- Arguments with the version flag set and every other flag empty (in
particular a missing base URL). -/
def args8 : Arguments := ⟨"", "", "", "", "", "", true⟩

/-- Arguments whose base URL has junk characters before the scheme. -/
def args9 : Arguments := ⟨"xxhttp://myserver", "", "", "x", "", "", false⟩

/-- The argument struct with the `-name` value replaced, all other fields
unchanged. -/
def setName (a : Arguments) (n : String) : Arguments :=
  ⟨a.BaseUrl, a.Username, a.Password, a.SeriesId, a.SeasonId, n, a.Version⟩

/-! ### Helper lemmas -/

/-- The series path never performs the free-text search. -/
theorem searchCall_notin_DownloadSeries (auth : AuthResponse) (b : String) (it : Item)
    (sid : String) (env : Env) :
    Event.searchCall ∉ (DownloadSeries auth b it sid env).2 := by
  unfold DownloadSeries
  repeat' split
  all_goals simp

/-- The movie path never performs the free-text search. -/
theorem searchCall_notin_DownloadMovie (auth : AuthResponse) (b : String) (it : Item)
    (env : Env) :
    Event.searchCall ∉ (DownloadMovie auth b it env).2 := by
  unfold DownloadMovie
  repeat' split
  all_goals simp

/-! ### The claims -/

/-- C1: on a two-element result list, `PrintItemSelection` selects the
k-th listed item for k in [1,2], rejects 3 and -1 with the
invalid-selection-range error and non-numeric input with the
invalid-selection-format error — but input 0 passes the bound check
`selection < 0 || selection > len` and indexes one before the first
element, a runtime panic rather than the range error the claim and the
spec require (the boundary bug the spec flags in sections 4.2 and 9). -/
theorem C1_selection_boundary :
    PrintItemSelection [itemMovieA, itemMovieB] "1\n" = .selected itemMovieA ∧
    PrintItemSelection [itemMovieA, itemMovieB] "2\n" = .selected itemMovieB ∧
    PrintItemSelection [itemMovieA, itemMovieB] "3\n" = .invalidRange ∧
    PrintItemSelection [itemMovieA, itemMovieB] "-1\n" = .invalidRange ∧
    PrintItemSelection [itemMovieA, itemMovieB] "abc\n" = .invalidFormat ∧
    PrintItemSelection [itemMovieA, itemMovieB] "0\n" = .panicIndex := by decide

/-- C2 counterexample: a name search that returns exactly one result
still shows the interactive selection prompt (and, the user answering
with an empty line, the run fails), contradicting the claim that the
sole result is selected automatically with no prompt. -/
theorem C2_prompt_shown_counterexample :
    env2.itemsForText = Except.ok [itemMovieA] ∧
    Event.selectionPrompt ∈ (Download args2 auth1 env2).2 ∧
    (Download args2 auth1 env2).1 = .ok false :=
  ⟨rfl, by decide, by decide⟩

/-- C2 amended: when the search returns exactly one result the selection
prompt is shown all the same, and the sole item is selected exactly for
the input lines that parse, after the newline strip, as the integer 1
(so "1", but also "01" or "+1"); every other line leaves the item
unselected. -/
theorem C2_single_result_amended (it : Item) (auth : AuthResponse) (args : Arguments)
    (env : Env) (hs : args.SeriesId = "") (hn : args.Name ≠ "")
    (hi : env.itemsForText = Except.ok [it]) :
    Event.selectionPrompt ∈ (Download args auth env).2 ∧
    ∀ line, PrintItemSelection [it] line = .selected it ↔
      goAtoi (trimSuffixNl line) = some 1 := by
  constructor
  · unfold Download
    rw [hs, hi]
    cases h : PrintItemSelection [it] env.selectionLine <;>
      simp [hn, h] <;> (try split) <;> simp
  · intro line
    unfold PrintItemSelection
    cases h : goAtoi (trimSuffixNl line) with
    | none => simp
    | some k =>
      simp only [Option.some.injEq, List.length_cons, List.length_nil, Nat.cast_one,
        Nat.cast_zero, zero_add]
      constructor
      · intro hsel
        by_contra h1
        by_cases hk : k < 0 ∨ k > (1 : Int)
        · rw [if_pos hk] at hsel
          exact SelOutcome.noConfusion hsel
        · push_neg at hk
          have hk0 : k = 0 := by omega
          subst hk0
          rw [if_neg (by omega)] at hsel
          simp [goIndex] at hsel
      · intro h1
        subst h1
        rw [if_neg (by omega)]
        norm_num [goIndex]

/-- C2 amended, witnessed at a concrete single-result environment, the
equivalence instantiated at the line "01". -/
theorem C2_single_result_amended_witness :
    Event.selectionPrompt ∈ (Download args2 auth1 env2).2 ∧
    (PrintItemSelection [itemMovieA] "01\n" = .selected itemMovieA ↔
      goAtoi (trimSuffixNl "01\n") = some 1) :=
  ⟨(C2_single_result_amended itemMovieA auth1 args2 env2 rfl (by decide) rfl).1,
   (C2_single_result_amended itemMovieA auth1 args2 env2 rfl (by decide) rfl).2 "01\n"⟩

/-- C3 counterexample: a run in which the user declines the series
confirmation gate exits with status 0, not 1 — `DownloadSeries` returns
true whether or not the download was confirmed. -/
theorem C3_series_decline_counterexample :
    env3.confirmSeries = false ∧
    mainRun args3 env3 =
      (.exit 0, [.authCall, .idLookupCall, .seriesFetchCall, .confirmPromptSeries]) := by decide

/-- C3 amended: declining the confirmation gate exits with status 1 in
the movie path, but with status 0 in the series path (the decline is not
treated as a failure there). -/
theorem C3_decline_amended (args : Arguments) (env : Env) (auth : AuthResponse) (it : Item)
    (hv : args.Version = false) (hc : (CheckArguments args).1 = true)
    (ha : env.authResult = Except.ok auth) (hid : args.SeriesId ≠ "")
    (hitem : env.itemForId = Except.ok it) :
    (it.ItemType ≠ "Series" → (∃ m, env.movieFromItem = Except.ok m) →
      env.confirmMovie = false → (mainRun args env).1 = .exit 1) ∧
    (it.ItemType = "Series" → (∃ ser, env.seriesFromItem = Except.ok ser ∧
        args.SeasonId ≠ "" ∧ ∃ season, GetSeasonForId ser args.SeasonId = Except.ok season) →
      env.confirmSeries = false → (mainRun args env).1 = .exit 0) := by
  constructor
  · intro hty hm hconf
    obtain ⟨m, hm⟩ := hm
    unfold mainRun Download DownloadMovie
    simp [hv, hc, ha, hid, hitem, hty, hm, hconf]
  · intro hty hser hconf
    obtain ⟨ser, hser, hsid, season, hseason⟩ := hser
    unfold mainRun Download DownloadSeries
    simp [hv, hc, ha, hid, hitem, hty, hser, hsid, hseason, hconf]

/-- C3 amended, witnessed: a declined movie run exits 1, a declined
series run exits 0. -/
theorem C3_decline_amended_witness :
    (mainRun args3m env3m).1 = .exit 1 ∧ (mainRun args3 env3).1 = .exit 0 :=
  ⟨(C3_decline_amended args3m env3m auth1 itemMovieA rfl (by decide) rfl (by decide) rfl).1
      (by decide) ⟨movie1, rfl⟩ rfl,
   (C3_decline_amended args3 env3 auth1 itemSeries1 rfl (by decide) rfl (by decide) rfl).2
      rfl ⟨series1, rfl, by decide, season1, rfl⟩ rfl⟩

/-- C4: an empty season multi-selection makes the series expansion fail
with the `EmptySelection` error before the confirmation gate is shown
and before any download call. -/
theorem C4_empty_selection_aborts (auth : AuthResponse) (b : String) (it : Item)
    (env : Env) (ser : Series) (hs : env.seriesFromItem = Except.ok ser)
    (hempty : chosenSeasons ser.Seasons env.chosenSeasonIdxs = []) :
    DownloadSeries auth b it "" env =
      (false, [.seriesFetchCall, .seasonSelectPrompt, .errMsg "EmptySelection"]) ∧
    Event.confirmPromptSeries ∉ (DownloadSeries auth b it "" env).2 ∧
    ∀ k, Event.downloadEpisodesCall k ∉ (DownloadSeries auth b it "" env).2 := by
  have h1 : PrintAndGetSelection ser env.chosenSeasonIdxs = Except.error "EmptySelection" := by
    unfold PrintAndGetSelection
    rw [hempty]
    rfl
  have h2 : DownloadSeries auth b it "" env =
      (false, [.seriesFetchCall, .seasonSelectPrompt, .errMsg "EmptySelection"]) := by
    unfold DownloadSeries
    rw [hs]
    simp [h1]
  refine ⟨h2, ?_, ?_⟩
  · rw [h2]; decide
  · intro k; rw [h2]; simp

/-- C4, witnessed at a concrete run in which no season is chosen. -/
theorem C4_empty_selection_aborts_witness :
    DownloadSeries auth1 "http://srv" itemSeries1 "" env3 =
      (false, [.seriesFetchCall, .seasonSelectPrompt, .errMsg "EmptySelection"]) ∧
    Event.confirmPromptSeries ∉ (DownloadSeries auth1 "http://srv" itemSeries1 "" env3).2 ∧
    ∀ k, Event.downloadEpisodesCall k ∉ (DownloadSeries auth1 "http://srv" itemSeries1 "" env3).2 :=
  C4_empty_selection_aborts auth1 "http://srv" itemSeries1 env3 series1 rfl (by decide)

/-- C5: `GetConfirmation` returns true exactly when the input line,
trimmed of surrounding whitespace and lowercased, is "y"; in particular
the lines "y", "Y", " y ", "yes", "n" and the empty input map to true,
true, true, false, false, false. -/
theorem C5_confirmation_token :
    (∀ s : String, GetConfirmation s = true ↔ goToLower (goTrimSpace s) = "y") ∧
    GetConfirmation "y\n" = true ∧ GetConfirmation "Y\n" = true ∧
    GetConfirmation " y \n" = true ∧ GetConfirmation "yes\n" = false ∧
    GetConfirmation "n\n" = false ∧ GetConfirmation "\n" = false ∧
    GetConfirmation "" = false :=
  ⟨fun s => by simp [GetConfirmation], by decide⟩

/-- C6: a name search returning zero results ends the run with exit
status 1 after the no-matches report; no selection prompt is shown and
the no-matches event differs from every transport-failure event. -/
theorem C6_no_matches (args : Arguments) (auth : AuthResponse) (env : Env)
    (hv : args.Version = false) (hc : (CheckArguments args).1 = true)
    (ha : env.authResult = Except.ok auth) (hs : args.SeriesId = "")
    (hn : args.Name ≠ "") (he : env.itemsForText = Except.ok []) :
    mainRun args env = (.exit 1, [.authCall, .searchCall, .noMatchesMsg]) ∧
    Event.selectionPrompt ∉ (mainRun args env).2 ∧
    (∀ s, Event.noMatchesMsg ≠ Event.transportFailMsg s) := by
  have hd : Download args auth env = (.ok false, [.searchCall, .noMatchesMsg]) := by
    unfold Download
    simp [hs, hn, he]
  have hm : mainRun args env = (.exit 1, [.authCall, .searchCall, .noMatchesMsg]) := by
    unfold mainRun
    simp [hv, hc, ha, hd]
  refine ⟨hm, by rw [hm]; decide, fun s => by simp⟩

/-- C6, witnessed at a concrete zero-result search. -/
theorem C6_no_matches_witness :
    mainRun args6 env6 = (.exit 1, [.authCall, .searchCall, .noMatchesMsg]) ∧
    Event.selectionPrompt ∉ (mainRun args6 env6).2 ∧
    (∀ s, Event.noMatchesMsg ≠ Event.transportFailMsg s) :=
  C6_no_matches args6 auth1 env6 rfl (by decide) rfl rfl (by decide) rfl

/-- C7: when `-seriesid` is non-empty the value of `-name` has no effect
on the outcome of `Download`, the free-text search is never performed,
and the direct-identifier lookup is. -/
theorem C7_seriesid_precedence (args : Arguments) (auth : AuthResponse) (env : Env)
    (n : String) (hs : args.SeriesId ≠ "") :
    Download (setName args n) auth env = Download args auth env ∧
    Event.searchCall ∉ (Download args auth env).2 ∧
    Event.idLookupCall ∈ (Download args auth env).2 := by
  refine ⟨?_, ?_, ?_⟩
  · unfold Download
    simp [setName, hs]
  · unfold Download
    simp only [hs, ne_eq, not_false_eq_true, if_true, ite_true]
    split
    · simp
    · split <;>
        simp [searchCall_notin_DownloadSeries, searchCall_notin_DownloadMovie]
  · unfold Download
    simp only [hs, ne_eq, not_false_eq_true, if_true, ite_true]
    split
    · simp
    · split <;> simp

/-- C7, witnessed: with both `-seriesid` and `-name` supplied, replacing
the name changes nothing and only the id lookup happens. -/
theorem C7_seriesid_precedence_witness :
    Download (setName args7 "other") auth1 env3 = Download args7 auth1 env3 ∧
    Event.searchCall ∉ (Download args7 auth1 env3).2 ∧
    Event.idLookupCall ∈ (Download args7 auth1 env3).2 :=
  C7_seriesid_precedence args7 auth1 env3 "other" (by decide)

/-- C8: with the `-version` flag set the run prints the version string
and exits with status 0, whatever the other flags and the environment;
the trace holds nothing but the version print, so no validation,
credential resolution or network call happens. -/
theorem C8_version_bypass (args : Arguments) (env : Env) (hv : args.Version = true) :
    mainRun args env =
      (.exit 0, [.versionPrinted ("JellyfinDownloader Version: " ++ VERSION)]) := by
  unfold mainRun
  rw [hv]
  simp

/-- C8, witnessed with a missing base URL and otherwise empty flags. -/
theorem C8_version_bypass_witness :
    mainRun args8 env6 =
      (.exit 0, [.versionPrinted ("JellyfinDownloader Version: " ++ VERSION)]) :=
  C8_version_bypass args8 env6 rfl

/-- C9: the URL pattern is matched without a start anchor, so
`CheckArguments` accepts the base URL "xxhttp://myserver" even though it
does not begin with a scheme. -/
theorem C9_unanchored_url_accepted :
    CheckArguments args9 = (true, "") ∧
    args9.BaseUrl.data.take 7 ≠ "http://".data := by decide

/-- C10: the selection prompt strips only the trailing newline, so an
otherwise valid index padded with spaces fails with the non-numeric-input
error for every result list, while the confirmation gate trims the same
padding and accepts " y ". -/
theorem C10_padded_selection_rejected :
    (∀ items : List Item, PrintItemSelection items " 2\n" = .invalidFormat ∧
      PrintItemSelection items "2 \n" = .invalidFormat) ∧
    GetConfirmation " y \n" = true := by
  refine ⟨fun items => ⟨rfl, rfl⟩, by decide⟩

end Jellyfin
